import Mathlib

/-!
Verification development for the dyb-toymc event generator.

The Python sources are modelled by a shallow embedding:

* `src/toymc/__init__.py` (the packaged module, referred to below as the
  packaged variant): engine `ToyMC`, base class `EventType`, the 17-field
  `Event` namedtuple, `MCOutput.prep_truth_lookup`, `InvalidLookupError`.
* `src/toymc.py` (the flat variant): 16-field `Event` namedtuple and a
  Poisson-drawing `EventType.actual_event_count`.
* `src/toymc/single.py`, `src/toymc/correlated.py`, `src/toymc/muon.py`:
  the packaged event types.

Conventions of the embedding:

* `numpy.random.Generator` is modelled by `RNG`: a family of draw oracles
  indexed by a cursor counting how many primitive draws were consumed.
  Each primitive draw reads the oracle at the current cursor (vectorised
  draws of size `n` read `n` consecutive indices) and advances the cursor,
  so the value of every draw is a deterministic function of the oracle,
  the call order and the parameters passed at each call site.
  `RNG.WellFormed` records the range guarantees of the numpy primitives.
* Python floats are modelled as exact rationals; Python's distinction
  between `int` and `float` values, which matters because
  `numpy.random.Generator.integers` rejects a float `size=` argument,
  is kept by `PyNum`.
* Exceptions are modelled by `Except PyErr`.  `PyErr.configurationError`
  models the `ConfigurationError` class named by the specification;
  no such class exists anywhere in the sources.
* A constructed `Event` namedtuple is a `PyTuple` (a list of `PyVal`
  field values in the declared field order); constructing one with an
  argument count different from the field count of the namedtuple raises
  `TypeError`, as in Python.
-/

/-- A Python value stored in an `Event` namedtuple field: `None`, an
integer, or a float (modelled as an exact rational). -/
inductive PyVal
  | vNone
  | vInt (n : Int)
  | vRat (q : ℚ)
  deriving DecidableEq, Repr

/-- A Python number that remembers whether it is an `int` or a `float`
(floats are modelled as exact rationals). -/
inductive PyNum
  | pint (n : Int)
  | pfloat (q : ℚ)
  deriving DecidableEq, Repr

/-- The numeric value of a `PyNum`. -/
def PyNum.toRat : PyNum → ℚ
  | .pint n => (n : ℚ)
  | .pfloat q => q

/-- Python multiplication of an `int` by a `PyNum`: `int * int` is an
`int`, `int * float` is a `float`. -/
def pyMulIntNum (n : Int) (b : PyNum) : PyNum :=
  match b with
  | .pint m => .pint (n * m)
  | .pfloat q => .pfloat ((n : ℚ) * q)

/-- The Python exceptions that the modelled code paths can raise.
`invalidLookup` models `toymc.InvalidLookupError` with its three
attributes; `configurationError` models the `ConfigurationError` class
that the specification names, which does not exist in the sources. -/
inductive PyErr
  | typeError
  | valueError
  | zeroDivisionError
  | keyError (key : Int)
  | invalidLookup (obj_name : String) (label_name : String) (supplied_number : Option Int)
  | configurationError
  deriving DecidableEq, Repr

/-- Python `None`-or-int converted to a namedtuple field value. -/
def PyVal.ofOptInt : Option Int → PyVal
  | none => .vNone
  | some n => .vInt n

/-- An `Event` namedtuple instance: the field values in declared order. -/
abbrev PyTuple := List PyVal

/-- Python `int(q)` on a number: truncation toward zero. -/
def ratTruncToInt (q : ℚ) : Int :=
  if 0 ≤ q.num then ((q.num.toNat / q.den : Nat) : Int)
  else -(((-q.num).toNat / q.den : Nat) : Int)

/-- The `size=` argument of a vectorised numpy draw: a Python `int` of
value `n ≥ 0` is accepted, a negative `int` raises `ValueError`, and a
`float` raises `TypeError`. -/
def pySize : PyNum → Except PyErr Nat
  | .pint n => if 0 ≤ n then .ok n.toNat else .error .valueError
  | .pfloat _ => .error .typeError

/-- Python `1 / x` on numbers: `ZeroDivisionError` when `x = 0`. -/
def pyRecip (q : ℚ) : Except PyErr ℚ :=
  if q = 0 then .error .zeroDivisionError else .ok (1 / q)

/-- The state of the single shared `numpy.random.default_rng` generator:
draw oracles for each primitive used by the sources, plus the cursor of
consumed draws. -/
structure RNG where
  intStream : Nat → Int → Int → Int
  realStream : Nat → ℚ → ℚ → ℚ
  expStream : Nat → ℚ → ℚ
  poissonStream : Nat → ℚ → Nat
  choiceStream : Nat → Nat → Nat
  cursor : Nat

/-- Advance the cursor after consuming `n` draws. -/
def RNG.bump (r : RNG) (n : Nat) : RNG :=
  { r with cursor := r.cursor + n }

/-- Range guarantees of the numpy primitives: `integers(low, high)` draws
in `[low, high)`, `exponential` draws are non-negative, `choice` from `n`
options picks an index below `n`. -/
structure RNG.WellFormed (r : RNG) : Prop where
  int_lb : ∀ k low high, low < high → low ≤ r.intStream k low high
  int_ub : ∀ k low high, low < high → r.intStream k low high < high
  exp_nonneg : ∀ k scale, 0 ≤ r.expStream k scale
  choice_lt : ∀ k n, 0 < n → r.choiceStream k n < n

/-- `rng.integers(low, high, size=size)`: a vectorised draw of `size`
integers in `[low, high)`; numpy raises `ValueError` when
`low >= high`. -/
def RNG.integersArray (r : RNG) (low high : Int) (size : Nat) :
    Except PyErr (List Int × RNG) :=
  if low < high then
    .ok ((List.range size).map fun i => r.intStream (r.cursor + i) low high, r.bump size)
  else .error .valueError

/-- `rng.integers(low, high)`: a single integer draw in `[low, high)`.
The only call site (`Muon.WP_nHit_spectrum` default, bounds 15 and 100)
has constant valid bounds, so the never-failing bounds check is
omitted. -/
def RNG.integersOne (r : RNG) (low high : Int) : Int × RNG :=
  (r.intStream r.cursor low high, r.bump 1)

/-- `rng.uniform(low, high)`: a single real draw (numpy does not
validate the bounds of `uniform`). -/
def RNG.uniformOne (r : RNG) (low high : ℚ) : ℚ × RNG :=
  (r.realStream r.cursor low high, r.bump 1)

/-- `rng.exponential(scale, size=size)`: a vectorised draw of `size`
non-negative reals with the given scale (mean); numpy raises
`ValueError` for a negative scale. -/
def RNG.exponentialArray (r : RNG) (scale : ℚ) (size : Nat) :
    Except PyErr (List ℚ × RNG) :=
  if 0 ≤ scale then
    .ok ((List.range size).map fun i => r.expStream (r.cursor + i) scale, r.bump size)
  else .error .valueError

/-- `rng.poisson(mean)`: a single non-negative integer draw. -/
def RNG.poisson (r : RNG) (mean : ℚ) : Nat × RNG :=
  (r.poissonStream r.cursor mean, r.bump 1)

/-- `rng.choice(options)`: one element of `options` chosen uniformly at
random.  The call sites pass the nonempty `avail_ads` tuple. -/
def RNG.choice (r : RNG) (options : List Int) : Int × RNG :=
  (options.getD (r.choiceStream r.cursor options.length) 0, r.bump 1)

/-- One step of the stable insertion sort modelling Python's
`list.sort`: insert `x` after every element strictly below it. -/
def insertB (lt : α → α → Bool) (x : α) : List α → List α
  | [] => [x]
  | y :: ys => if lt y x then y :: insertB lt x ys else x :: y :: ys

/-- Stable insertion sort with strict-order test `lt`.  Python's
`list.sort` is specified to be a stable ascending sort, which determines
its output uniquely, so any stable sort is a faithful model. -/
def isortB (lt : α → α → Bool) : List α → List α
  | [] => []
  | x :: xs => insertB lt x (isortB lt xs)

/-- The strict comparison induced by an integer sort key. -/
def keyLt (k : α → Int) (a b : α) : Bool := decide (k a < k b)

/-- The field names of the packaged `Event` namedtuple
(`src/toymc/__init__.py`), in declared order. -/
def eventFieldNames : List String :=
  ["truth_index", "trigger_number", "timestamp", "detector", "trigger_type",
   "site", "energy", "nHit", "charge", "x", "y", "z", "fMax", "fQuad",
   "fPSD_t1", "fPSD_t2", "f2inch_maxQ"]

/-- Constructing a namedtuple instance from positional arguments: Python
raises `TypeError` unless exactly one value per field is supplied. -/
def pyTupleNew (fields : List String) (args : List PyVal) : Except PyErr PyTuple :=
  if args.length = fields.length then .ok args else .error .typeError

/-- The value `operator.attrgetter("timestamp")` reads from a packaged
event tuple: field index 2.  Every constructed event stores an integer
there. -/
def tuple_timestamp (e : PyTuple) : Int :=
  match e.getD 2 .vNone with
  | .vInt n => n
  | _ => 0

/-- Read a tuple field as a Python number (used for `prompt.x` etc.). -/
def tupleValRat : PyVal → ℚ
  | .vInt n => (n : ℚ)
  | .vRat q => q
  | .vNone => 0

/-- The packaged default count policy
(`EventType.actual_event_count`, `src/toymc/__init__.py` lines 643-672):
`expected_count = duration_s * rate_hz; return expected_count`.
It consumes no randomness. -/
def EventType.actual_event_count (rng : RNG) (duration_s : Int) (rate_hz : PyNum) :
    PyNum × RNG :=
  let expected_count := pyMulIntNum duration_s rate_hz
  (expected_count, rng)

/-- The flat-variant count policy (`EventType.actual_event_count`,
`src/toymc.py` lines 196-200):
`expected_count = duration_s * rate_hz; return rng.poisson(expected_count)`. -/
def FlatEventType.actual_event_count (rng : RNG) (duration_s : Int) (rate_hz : PyNum) :
    Nat × RNG :=
  let expected_count := pyMulIntNum duration_s rate_hz
  rng.poisson expected_count.toRat

/-- A generation loop: construct one event per timestamp, threading the
generator; the first raised exception aborts the whole call, as in the
`for`-loops of `generate_events`. -/
def genLoop (f : RNG → Int → Except PyErr PyTuple × RNG) :
    List Int → RNG → Except PyErr (List PyTuple × RNG)
  | [], rng => .ok ([], rng)
  | t :: ts, rng =>
    match f rng t with
    | (.error e, _) => .error e
    | (.ok ev, rng1) =>
      match genLoop f ts rng1 with
      | .error e => .error e
      | .ok (rest, rng2) => .ok (ev :: rest, rng2)

/-- The packaged `Single` event type (`src/toymc/single.py`).  The
pluggable spectrum functions are held as fields; their defaults come from
`toymc.util`, which is not among the sources. -/
structure Single where
  name : String
  rate_hz : PyNum
  site : Int
  detector : Int
  trigger_type : Int
  energy_spectrum : RNG → ℚ × RNG
  position_spectrum_mm : RNG → (ℚ × ℚ × ℚ) × RNG

/-- `Single.physical_quantities`: energy and position from the pluggable
spectra, then the 11-value tail of the event tuple, in source order
`(energy, nHit, charge, x, y, z, fMax, fQuad, fPSD_t1, fPSD_t2,
f2inch_maxQ)`. -/
def Single.physical_quantities (s : Single) (rng : RNG) : List PyVal × RNG :=
  let er := s.energy_spectrum rng
  let pr := s.position_spectrum_mm er.2
  ([.vRat er.1, .vInt 192, .vRat (er.1 * 170), .vRat pr.1.1, .vRat pr.1.2.1,
    .vRat pr.1.2.2, .vRat (1/10), .vRat (1/10), .vRat (99/100), .vRat (99/100),
    .vInt 0], pr.2)

/-- The positional arguments `Single.new_event` passes to the `Event`
constructor: `Event(1, timestamp, self.detector, self.trigger_type,
self.site, *self.physical_quantities(rng))`. -/
def Single.event_args (s : Single) (rng : RNG) (timestamp : Int) : List PyVal × RNG :=
  let pq := s.physical_quantities rng
  ([.vInt 1, .vInt timestamp, .vInt s.detector, .vInt s.trigger_type,
    .vInt s.site] ++ pq.1, pq.2)

/-- `Single.new_event`: construct the `Event` namedtuple from the
positional arguments above. -/
def Single.new_event (s : Single) (rng : RNG) (timestamp : Int) :
    Except PyErr PyTuple × RNG :=
  let ar := s.event_args rng timestamp
  (pyTupleNew eventFieldNames ar.1, ar.2)

/-- `Single.generate_events(rng, duration_s)` of the packaged variant. -/
def Single.generate_events (s : Single) (rng : RNG) (duration_s : Int) :
    Except PyErr (List PyTuple × RNG) :=
  let ar := EventType.actual_event_count rng duration_s s.rate_hz
  let duration_ns : Int := 1000000000 * duration_s
  match pySize ar.1 with
  | .error e => .error e
  | .ok actual_number =>
    match ar.2.integersArray 0 duration_ns actual_number with
    | .error e => .error e
    | .ok (timestamps, rng1) => genLoop s.new_event timestamps rng1

/-- The packaged `Correlated` event type (`src/toymc/correlated.py`).
The four pluggable spectrum functions are fields; their defaults come
from `toymc.util`, which is not among the sources.  `truth_label_prompt`
and `truth_label_delayed` default to `None`. -/
structure Correlated where
  name : String
  rate_hz : PyNum
  site : Int
  detector : Int
  trigger_type : Int
  coincidence_ns : ℚ
  prompt_energy_spectrum : RNG → ℚ × RNG
  delayed_energy_spectrum : RNG → ℚ × RNG
  prompt_position_spectrum_mm : RNG → (ℚ × ℚ × ℚ) × RNG
  delayed_pos_from_prompt_mm : RNG → ℚ × ℚ × ℚ → (ℚ × ℚ × ℚ) × RNG
  truth_label_prompt : Option Int
  truth_label_delayed : Option Int

/-- `Correlated.prompt_physical_quantities`: the 11-value tail of a
prompt event tuple. -/
def Correlated.prompt_physical_quantities (c : Correlated) (rng : RNG) :
    List PyVal × RNG :=
  let er := c.prompt_energy_spectrum rng
  let pr := c.prompt_position_spectrum_mm er.2
  ([.vRat er.1, .vInt 192, .vRat (er.1 * 170), .vRat pr.1.1, .vRat pr.1.2.1,
    .vRat pr.1.2.2, .vRat (1/10), .vRat (1/10), .vRat (99/100), .vRat (99/100),
    .vInt 0], pr.2)

/-- `Correlated.delayed_physical_quantities`: the 11-value tail of a
delayed event tuple, with the position derived from the prompt
position. -/
def Correlated.delayed_physical_quantities (c : Correlated) (rng : RNG)
    (prompt_position : ℚ × ℚ × ℚ) : List PyVal × RNG :=
  let er := c.delayed_energy_spectrum rng
  let pr := c.delayed_pos_from_prompt_mm er.2 prompt_position
  ([.vRat er.1, .vInt 192, .vRat (er.1 * 170), .vRat pr.1.1, .vRat pr.1.2.1,
    .vRat pr.1.2.2, .vRat (1/10), .vRat (1/10), .vRat (99/100), .vRat (99/100),
    .vInt 0], pr.2)

/-- The positional arguments of `Correlated.new_prompt_event`:
`Event(self.truth_label_prompt, 1, timestamp, self.detector,
self.trigger_type, self.site, *quantities)` - 17 values. -/
def Correlated.prompt_args (c : Correlated) (rng : RNG) (timestamp : Int) :
    List PyVal × RNG :=
  let pq := c.prompt_physical_quantities rng
  ([PyVal.ofOptInt c.truth_label_prompt, .vInt 1, .vInt timestamp,
    .vInt c.detector, .vInt c.trigger_type, .vInt c.site] ++ pq.1, pq.2)

/-- `Correlated.new_prompt_event`. -/
def Correlated.new_prompt_event (c : Correlated) (rng : RNG) (timestamp : Int) :
    Except PyErr PyTuple × RNG :=
  let ar := c.prompt_args rng timestamp
  (pyTupleNew eventFieldNames ar.1, ar.2)

/-- The positional arguments of `Correlated.new_delayed_event`. -/
def Correlated.delayed_args (c : Correlated) (rng : RNG) (timestamp : Int)
    (prompt_position : ℚ × ℚ × ℚ) : List PyVal × RNG :=
  let pq := c.delayed_physical_quantities rng prompt_position
  ([PyVal.ofOptInt c.truth_label_delayed, .vInt 1, .vInt timestamp,
    .vInt c.detector, .vInt c.trigger_type, .vInt c.site] ++ pq.1, pq.2)

/-- `Correlated.new_delayed_event`. -/
def Correlated.new_delayed_event (c : Correlated) (rng : RNG) (timestamp : Int)
    (prompt_position : ℚ × ℚ × ℚ) : Except PyErr PyTuple × RNG :=
  let ar := c.delayed_args rng timestamp prompt_position
  (pyTupleNew eventFieldNames ar.1, ar.2)

/-- The pair loop of `Correlated.generate_events`: for each
`(time_prompt, time_delayed)` pair append the prompt event and then the
delayed event, handing the delayed event the prompt's `(x, y, z)`. -/
def Correlated.pairLoop (c : Correlated) :
    List (Int × Int) → RNG → Except PyErr (List PyTuple × RNG)
  | [], rng => .ok ([], rng)
  | tp :: rest, rng =>
    match c.new_prompt_event rng tp.1 with
    | (.error e, _) => .error e
    | (.ok prompt, rng1) =>
      let prompt_position := (tupleValRat (prompt.getD 9 .vNone),
        tupleValRat (prompt.getD 10 .vNone), tupleValRat (prompt.getD 11 .vNone))
      match c.new_delayed_event rng1 tp.2 prompt_position with
      | (.error e, _) => .error e
      | (.ok delayed, rng2) =>
        match c.pairLoop rest rng2 with
        | .error e => .error e
        | .ok (events, rng3) => .ok (prompt :: delayed :: events, rng3)

/-- `Correlated.generate_events(rng, duration_s, t0_s)` of the packaged
variant: prompt timestamps from `rng.integers(start_ns, end_ns,
size=actual_number)`, delays from `rng.exponential(1 /
self.coincidence_ns, size=actual_number).astype(int)`, and
`times_delayed = times_prompt + delays`. -/
def Correlated.generate_events (c : Correlated) (rng : RNG)
    (duration_s t0_s : Int) : Except PyErr (List PyTuple × RNG) :=
  let ar := EventType.actual_event_count rng duration_s c.rate_hz
  let duration_ns : Int := 1000000000 * duration_s
  let start_ns : Int := 1000000000 * t0_s
  let end_ns : Int := start_ns + duration_ns
  match pySize ar.1 with
  | .error e => .error e
  | .ok actual_number =>
    match ar.2.integersArray start_ns end_ns actual_number with
    | .error e => .error e
    | .ok (times_prompt, rng1) =>
      match pyRecip c.coincidence_ns with
      | .error e => .error e
      | .ok scale =>
        match rng1.exponentialArray scale actual_number with
        | .error e => .error e
        | .ok (delay_draws, rng2) =>
          let delays := delay_draws.map ratTruncToInt
          let times_delayed := List.zipWith (fun a b => a + b) times_prompt delays
          c.pairLoop (times_prompt.zip times_delayed) rng2

/-- The packaged `Muon` event type (`src/toymc/muon.py`). -/
structure Muon where
  name : String
  rate_hz : PyNum
  site : Int
  avail_ads : List Int
  prob_WP_no_AD : ℚ
  prob_WP_and_AD : ℚ
  prob_WP_and_shower : ℚ
  WP_detector : Int
  trigger_type : Int
  WP_nHit_spectrum : RNG → Int × RNG
  ADMuon_energy_spectrum : RNG → ℚ × RNG
  shower_energy_spectrum : RNG → ℚ × RNG

/-- The dictionary `{1: (1, 2), 2: (1, 2), 4: (1, 2, 3, 4)}` indexed in
`Muon.__init__`; a missing key raises `KeyError`. -/
def muonAvailAds (site : Int) : Option (List Int) :=
  if site = 1 then some [1, 2]
  else if site = 2 then some [1, 2]
  else if site = 4 then some [1, 2, 3, 4]
  else none

/-- `Muon.__init__(name, site, rate_Hz)`: the dictionary lookup for
`avail_ads` happens at construction time, so an unknown site raises
`KeyError` there.  All other attributes get their source defaults
(`0.8`, `0.1995`, `0.0005`, detector 6, trigger type `0x10001100`, and
the three default spectra). -/
def Muon.init (name : String) (site : Int) (rate_Hz : PyNum) : Except PyErr Muon :=
  match muonAvailAds site with
  | none => .error (.keyError site)
  | some ads => .ok
    { name := name
      rate_hz := rate_Hz
      site := site
      avail_ads := ads
      prob_WP_no_AD := 8/10
      prob_WP_and_AD := 1995/10000
      prob_WP_and_shower := 5/10000
      WP_detector := 6
      trigger_type := 0x10001100
      WP_nHit_spectrum := fun rng => rng.integersOne 15 100
      ADMuon_energy_spectrum := fun rng => rng.uniformOne 20 2000
      shower_energy_spectrum := fun rng => rng.uniformOne 2500 5000 }

/-- `Muon.WP_physical_quantities`: zero energy, charge and position; the
nHit value comes from the pluggable `WP_nHit_spectrum`. -/
def Muon.WP_physical_quantities (m : Muon) (rng : RNG) : List PyVal × RNG :=
  let nr := m.WP_nHit_spectrum rng
  ([.vInt 0, .vInt nr.1, .vInt 0, .vInt 0, .vInt 0, .vInt 0, .vInt 0, .vInt 0,
    .vInt 0, .vInt 0, .vInt 0], nr.2)

/-- `Muon.AD_muon_physical_quantities`: energy from
`ADMuon_energy_spectrum`, position fixed at the origin. -/
def Muon.AD_muon_physical_quantities (m : Muon) (rng : RNG) : List PyVal × RNG :=
  let er := m.ADMuon_energy_spectrum rng
  ([.vRat er.1, .vInt 192, .vRat (er.1 * 170), .vInt 0, .vInt 0, .vInt 0,
    .vRat (1/10), .vRat (1/10), .vRat (99/100), .vRat (99/100), .vInt 0], er.2)

/-- `Muon.shower_muon_physical_quantities`: energy from
`shower_energy_spectrum`, position fixed at the origin. -/
def Muon.shower_muon_physical_quantities (m : Muon) (rng : RNG) : List PyVal × RNG :=
  let er := m.shower_energy_spectrum rng
  ([.vRat er.1, .vInt 192, .vRat (er.1 * 170), .vInt 0, .vInt 0, .vInt 0,
    .vRat (1/10), .vRat (1/10), .vRat (99/100), .vRat (99/100), .vInt 0], er.2)

/-- The positional arguments `Muon.new_WP_event` passes to the `Event`
constructor: `Event(1, timestamp, self.WP_detector, self.trigger_type,
self.site, *quantities)` - 16 values. -/
def Muon.WP_event_args (m : Muon) (rng : RNG) (timestamp : Int) : List PyVal × RNG :=
  let pq := m.WP_physical_quantities rng
  ([.vInt 1, .vInt timestamp, .vInt m.WP_detector, .vInt m.trigger_type,
    .vInt m.site] ++ pq.1, pq.2)

/-- `Muon.new_WP_event`. -/
def Muon.new_WP_event (m : Muon) (rng : RNG) (timestamp : Int) :
    Except PyErr PyTuple × RNG :=
  let ar := m.WP_event_args rng timestamp
  (pyTupleNew eventFieldNames ar.1, ar.2)

/-- The positional arguments of `Muon.new_AD_event`: `Event(1,
timestamp, rng.choice(self.avail_ads), self.trigger_type, self.site,
*quantities)`.  Python evaluates the `rng.choice` argument before the
physical quantities. -/
def Muon.AD_event_args (m : Muon) (rng : RNG) (timestamp : Int) : List PyVal × RNG :=
  let cr := rng.choice m.avail_ads
  let pq := m.AD_muon_physical_quantities cr.2
  ([.vInt 1, .vInt timestamp, .vInt cr.1, .vInt m.trigger_type,
    .vInt m.site] ++ pq.1, pq.2)

/-- `Muon.new_AD_event`. -/
def Muon.new_AD_event (m : Muon) (rng : RNG) (timestamp : Int) :
    Except PyErr PyTuple × RNG :=
  let ar := m.AD_event_args rng timestamp
  (pyTupleNew eventFieldNames ar.1, ar.2)

/-- The positional arguments of `Muon.new_shower_event`. -/
def Muon.shower_event_args (m : Muon) (rng : RNG) (timestamp : Int) :
    List PyVal × RNG :=
  let cr := rng.choice m.avail_ads
  let pq := m.shower_muon_physical_quantities cr.2
  ([.vInt 1, .vInt timestamp, .vInt cr.1, .vInt m.trigger_type,
    .vInt m.site] ++ pq.1, pq.2)

/-- `Muon.new_shower_event`. -/
def Muon.new_shower_event (m : Muon) (rng : RNG) (timestamp : Int) :
    Except PyErr PyTuple × RNG :=
  let ar := m.shower_event_args rng timestamp
  (pyTupleNew eventFieldNames ar.1, ar.2)

/-- `Muon.generate_events(rng, duration_s)`: every WP timestamp emits a
WP event; the first `int(count * prob_WP_and_AD)` timestamps also emit
an AD muon at `timestamp + 50`, and the next
`int(count * prob_WP_and_shower)` timestamps a shower muon at the same
delay.  The slice counts are non-negative for the default and documented
probability settings, so Python's `list[:n]` is `List.take` here. -/
def Muon.generate_events (m : Muon) (rng : RNG) (duration_s : Int) :
    Except PyErr (List PyTuple × RNG) :=
  let ar := EventType.actual_event_count rng duration_s m.rate_hz
  let number_admuons := ratTruncToInt (ar.1.toRat * m.prob_WP_and_AD)
  let number_showermuons := ratTruncToInt (ar.1.toRat * m.prob_WP_and_shower)
  let duration_ns : Int := 1000000000 * duration_s
  let ad_delay : Int := 50
  match pySize ar.1 with
  | .error e => .error e
  | .ok actual_number =>
    match ar.2.integersArray 0 duration_ns actual_number with
    | .error e => .error e
    | .ok (times_WP, rng1) =>
      match genLoop m.new_WP_event times_WP rng1 with
      | .error e => .error e
      | .ok (wp_events, rng2) =>
        match genLoop (fun rng t => m.new_AD_event rng (t + ad_delay))
            (times_WP.take number_admuons.toNat) rng2 with
        | .error e => .error e
        | .ok (ad_events, rng3) =>
          match genLoop (fun rng t => m.new_shower_event rng (t + ad_delay))
              ((times_WP.drop number_admuons.toNat).take number_showermuons.toNat)
              rng3 with
          | .error e => .error e
          | .ok (shower_events, rng4) =>
            .ok (wp_events ++ ad_events ++ shower_events, rng4)

/-- A registered event type, as held in `ToyMC.event_types`. -/
inductive ETConfig
  | singleET (s : Single)
  | correlatedET (c : Correlated)
  | muonET (m : Muon)

/-- The call `event_type.generate_events(self.rng, self.duration)` made
by `ToyMC.run` (`src/toymc/__init__.py` lines 281-282).  The call passes
exactly two arguments; the packaged `Correlated.generate_events`
declares a third required parameter `t0_s`, so for a `Correlated` the
call itself raises `TypeError` before the method body runs (and before
any draw is consumed).  `ToyMC` stores no start time at all. -/
def ToyMC.dispatch_generate (et : ETConfig) (rng : RNG) (duration : Int) :
    Except PyErr (List PyTuple × RNG) :=
  match et with
  | .singleET s => s.generate_events rng duration
  | .correlatedET _ => .error .typeError
  | .muonET m => m.generate_events rng duration

/-- The generation loop of `ToyMC.run`: call `generate_events` on each
registered event type in registration order, threading the single shared
generator, and concatenate the results. -/
def ToyMC.run_events : List ETConfig → RNG → Int → Except PyErr (List PyTuple × RNG)
  | [], rng, _ => .ok ([], rng)
  | et :: rest, rng, duration =>
    match ToyMC.dispatch_generate et rng duration with
    | .error e => .error e
    | .ok (new_events, rng1) =>
      match ToyMC.run_events rest rng1 duration with
      | .error e => .error e
      | .ok (events, rng2) => .ok (new_events ++ events, rng2)

/-- The sort step of `ToyMC.run`:
`events.sort(key=attrgetter("timestamp"))` - Python's stable ascending
sort keyed by the timestamp field. -/
def ToyMC.sort_events (events : List PyTuple) : List PyTuple :=
  isortB (keyLt tuple_timestamp) events

/-- The generation phase of `ToyMC.run`: generate in registration order,
then stable-sort by timestamp.  (The subsequent `output.add` loop hands
the events to the ROOT sink in exactly this order.) -/
def ToyMC.run_generate (ets : List ETConfig) (rng : RNG) (duration : Int) :
    Except PyErr (List PyTuple × RNG) :=
  match ToyMC.run_events ets rng duration with
  | .error e => .error e
  | .ok (events, rng1) => .ok (ToyMC.sort_events events, rng1)

/-- One label declaration of an event type, as produced by iterating
`event_type.labels().items()`: the lookup number (`None` when never
assigned) and the text label. -/
abbrev LabelDecl := Option Int × String

/-- `Correlated.labels`: the two declared subtype labels, keyed by
`truth_label_prompt` and `truth_label_delayed`. -/
def Correlated.labels (c : Correlated) : List LabelDecl :=
  [(c.truth_label_prompt, c.name ++ "_prompt"),
   (c.truth_label_delayed, c.name ++ "_delayed")]

/-- The inner loop of `MCOutput.prep_truth_lookup` for one event type:
walk its label declarations, raising
`InvalidLookupError(event_type.name, label, number)` on a `None` or
negative number, and otherwise collect `(label, number)` into
`numbers_by_label` and `(number, label)` into `labels_by_number`. -/
def collect_one (obj_name : String) :
    List LabelDecl → Except PyErr (List (String × Int) × List (Int × String))
  | [] => .ok ([], [])
  | (number, label) :: rest =>
    match number with
    | none => .error (.invalidLookup obj_name label none)
    | some v =>
      if v < 0 then .error (.invalidLookup obj_name label (some v))
      else
        match collect_one obj_name rest with
        | .error e => .error e
        | .ok (nbl, lbn) => .ok ((label, v) :: nbl, (v, label) :: lbn)

/-- The outer loop of `MCOutput.prep_truth_lookup` over all registered
event types, concatenating the per-type collections. -/
def collect_labels :
    List (String × List LabelDecl) →
    Except PyErr (List (String × Int) × List (Int × String))
  | [] => .ok ([], [])
  | (name, labels) :: rest =>
    match collect_one name labels with
    | .error e => .error e
    | .ok (nbl1, lbn1) =>
      match collect_labels rest with
      | .error e => .error e
      | .ok (nbl2, lbn2) => .ok (nbl1 ++ nbl2, lbn1 ++ lbn2)

/-- Lexicographic tuple comparison for `numbers_by_label.sort()`. -/
def strIntLt (a b : String × Int) : Bool :=
  decide (a.1 < b.1) || (decide (a.1 = b.1) && decide (a.2 < b.2))

/-- Lexicographic tuple comparison for `labels_by_number.sort()`. -/
def intStrLt (a b : Int × String) : Bool :=
  decide (a.1 < b.1) || (decide (a.1 = b.1) && decide (a.2 < b.2))

/-- The validation and table-building part of
`MCOutput.prep_truth_lookup` (`src/toymc/__init__.py` lines 497-568):
collect and validate every label declaration, sort both directions, and
compute `max(len(x[0]) for x in numbers_by_label)` - which raises
`ValueError` on an empty collection.  The subsequent TTree/TBranch
construction is ROOT sink glue and is outside the model. -/
def prep_truth_lookup (event_types : List (String × List LabelDecl)) :
    Except PyErr (List (String × Int) × List (Int × String)) :=
  match collect_labels event_types with
  | .error e => .error e
  | .ok (numbers_by_label, labels_by_number) =>
    let nbl := isortB strIntLt numbers_by_label
    let lbn := isortB intStrLt labels_by_number
    if nbl.isEmpty then .error .valueError else .ok (nbl, lbn)

/-- The event list of a `generate_events` result, when it returned
normally. -/
def resultEvents (r : Except PyErr (List PyTuple × RNG)) : Option (List PyTuple) :=
  r.toOption.map Prod.fst

/-- The structural invariant of a `Correlated` event list: events come
in prompt/delayed pairs sharing detector and site, with the delayed
timestamp at least the prompt timestamp. -/
inductive CorrelatedShape (c : Correlated) : List PyTuple → Prop
  | nil : CorrelatedShape c []
  | pair (p d : PyTuple) (rest : List PyTuple)
      (hpdet : p.getD 3 .vNone = .vInt c.detector)
      (hpsite : p.getD 5 .vNone = .vInt c.site)
      (hddet : d.getD 3 .vNone = .vInt c.detector)
      (hdsite : d.getD 5 .vNone = .vInt c.site)
      (hts : tuple_timestamp p ≤ tuple_timestamp d)
      (hrest : CorrelatedShape c rest) :
      CorrelatedShape c (p :: d :: rest)

/-- A concrete generator whose `integers` oracle always answers the
lower bound, whose exponential oracle answers 1, and whose Poisson
oracle answers 7. -/
def constRNG : RNG :=
  { intStream := fun _ low _ => low
    realStream := fun _ low _ => low
    expStream := fun _ _ => 1
    poissonStream := fun _ _ => 7
    choiceStream := fun _ _ => 0
    cursor := 0 }

/-- A generator whose exponential oracle echoes the scale parameter it
was called with, making the scale argument of each `rng.exponential`
call observable in the produced values. -/
def echoExpRNG : RNG :=
  { constRNG with expStream := fun _ scale => scale }

/-- A family of generators indexed by seed, standing in for
`numpy.random.default_rng(seed)`. -/
def seedRNG (seed : Nat) : RNG :=
  { constRNG with intStream := fun k low _ => low + (k : Int) + (seed : Int) }

/-- A concrete `Correlated` configuration with unit-rate pairs,
coincidence time scale 28000 ns, constant spectra and assigned truth
labels. -/
def corrIBD : Correlated :=
  { name := "IBD"
    rate_hz := .pint 1
    site := 1
    detector := 1
    trigger_type := 0x10001100
    coincidence_ns := 28000
    prompt_energy_spectrum := fun rng => (1, rng)
    delayed_energy_spectrum := fun rng => (8, rng)
    prompt_position_spectrum_mm := fun rng => ((0, 0, 0), rng)
    delayed_pos_from_prompt_mm := fun rng _ => ((0, 0, 0), rng)
    truth_label_prompt := some 1
    truth_label_delayed := some 2 }

/-- The event pair `corrIBD.generate_events constRNG 1 0` produces. -/
def corrIBDEvents : List PyTuple :=
  [[.vInt 1, .vInt 1, .vInt 0, .vInt 1, .vInt 0x10001100, .vInt 1, .vRat 1,
    .vInt 192, .vRat 170, .vRat 0, .vRat 0, .vRat 0, .vRat (1/10), .vRat (1/10),
    .vRat (99/100), .vRat (99/100), .vInt 0],
   [.vInt 2, .vInt 1, .vInt 1, .vInt 1, .vInt 0x10001100, .vInt 1, .vRat 8,
    .vInt 192, .vRat 1360, .vRat 0, .vRat 0, .vRat 0, .vRat (1/10), .vRat (1/10),
    .vRat (99/100), .vRat (99/100), .vInt 0]]

/-- A second concrete `Correlated` configuration, used against the
start-time-less engine call. -/
def corrNGd : Correlated :=
  { corrIBD with
    name := "IBD_nGd"
    coincidence_ns := 28000
    truth_label_prompt := some 3
    truth_label_delayed := some 4 }

/-- A concrete `Muon` with the probabilities of the specification's
partition test (`prob_WP_and_AD=0.5`, `prob_WP_and_shower=0`) and
constant spectra. -/
def muonHalfAD : Muon :=
  { name := "Muon"
    rate_hz := .pint 1
    site := 1
    avail_ads := [1, 2]
    prob_WP_no_AD := 1/2
    prob_WP_and_AD := 1/2
    prob_WP_and_shower := 0
    WP_detector := 6
    trigger_type := 0x10001100
    WP_nHit_spectrum := fun rng => (20, rng)
    ADMuon_energy_spectrum := fun rng => (100, rng)
    shower_energy_spectrum := fun rng => (3000, rng) }

/-- A concrete `Single` with rate 2 Hz and constant spectra. -/
def singleRate2 : Single :=
  { name := "Single_event"
    rate_hz := .pint 2
    site := 1
    detector := 1
    trigger_type := 0x10001100
    energy_spectrum := fun rng => (2, rng)
    position_spectrum_mm := fun rng => ((0, 0, 0), rng) }

/-- The same `Single` with rate 0 Hz. -/
def singleRate0 : Single :=
  { singleRate2 with rate_hz := .pint 0 }

/-- The `muonHalfAD` configuration with rate 0 Hz. -/
def muonRate0 : Muon :=
  { muonHalfAD with rate_hz := .pint 0 }

/-- The event pair `corrIBD.generate_events echoExpRNG 1 0` produces:
the exponential oracle echoes the scale argument `1/28000`, which
truncates to a zero-nanosecond delay, so prompt and delayed events share
timestamp 0. -/
def corrDelayEchoEvents : List PyTuple :=
  [[.vInt 1, .vInt 1, .vInt 0, .vInt 1, .vInt 0x10001100, .vInt 1, .vRat 1,
    .vInt 192, .vRat 170, .vRat 0, .vRat 0, .vRat 0, .vRat (1/10), .vRat (1/10),
    .vRat (99/100), .vRat (99/100), .vInt 0],
   [.vInt 2, .vInt 1, .vInt 0, .vInt 1, .vInt 0x10001100, .vInt 1, .vRat 8,
    .vInt 192, .vRat 1360, .vRat 0, .vRat 0, .vRat 0, .vRat (1/10), .vRat (1/10),
    .vRat (99/100), .vRat (99/100), .vInt 0]]

/-- A `Correlated` instance named `TypeA` declaring codes 1 and 2. -/
def corrDupA : Correlated :=
  { corrIBD with
    name := "TypeA"
    truth_label_prompt := some 1
    truth_label_delayed := some 2 }

/-- A `Correlated` instance named `TypeB` that reuses code 1 (and
declares 3). -/
def corrDupB : Correlated :=
  { corrIBD with
    name := "TypeB"
    truth_label_prompt := some 1
    truth_label_delayed := some 3 }

/-- Two registered event types declaring the same numeric code 1. -/
def dupLabelEventTypes : List (String × List LabelDecl) :=
  [(corrDupA.name, corrDupA.labels), (corrDupB.name, corrDupB.labels)]

/-- Whether one label declaration carries a present, non-negative
code - exactly the complement of the condition under which the loop of
`prep_truth_lookup` raises `InvalidLookupError`. -/
def labelEntryValid (e : LabelDecl) : Bool :=
  match e.1 with
  | some v => decide (0 ≤ v)
  | none => false

theorem insertB_perm {α : Type} (lt : α → α → Bool) (x : α) (l : List α) :
    List.Perm (insertB lt x l) (x :: l) := by
  induction l with
  | nil => simp [insertB]
  | cons y ys ih =>
    simp only [insertB]
    split
    · exact (ih.cons y).trans (List.Perm.swap x y ys)
    · exact List.Perm.refl _

theorem isortB_perm {α : Type} (lt : α → α → Bool) (l : List α) :
    List.Perm (isortB lt l) l := by
  induction l with
  | nil => exact List.Perm.refl _
  | cons x xs ih => exact (insertB_perm lt x (isortB lt xs)).trans (ih.cons x)

theorem pairwise_insertB {α : Type} (k : α → Int) (x : α) (l : List α)
    (h : l.Pairwise (fun a b => k a ≤ k b)) :
    (insertB (keyLt k) x l).Pairwise (fun a b => k a ≤ k b) := by
  induction l with
  | nil => simp [insertB]
  | cons y ys ih =>
    rw [List.pairwise_cons] at h
    simp only [insertB]
    split
    · rename_i hlt
      rw [keyLt, decide_eq_true_iff] at hlt
      rw [List.pairwise_cons]
      refine ⟨fun z hz => ?_, ih h.2⟩
      rcases List.mem_cons.mp ((insertB_perm (keyLt k) x ys).mem_iff.mp hz) with hzx | hzys
      · exact hzx ▸ le_of_lt hlt
      · exact h.1 z hzys
    · rename_i hnlt
      rw [keyLt, decide_eq_true_iff] at hnlt
      rw [List.pairwise_cons]
      refine ⟨fun z hz => ?_, List.pairwise_cons.mpr h⟩
      rcases List.mem_cons.mp hz with hzy | hzys
      · exact hzy ▸ le_of_not_lt hnlt
      · exact le_trans (le_of_not_lt hnlt) (h.1 z hzys)

theorem pairwise_isortB {α : Type} (k : α → Int) (l : List α) :
    (isortB (keyLt k) l).Pairwise (fun a b => k a ≤ k b) := by
  induction l with
  | nil => simp [isortB]
  | cons x xs ih => exact pairwise_insertB k x _ ih

theorem filter_insertB {α : Type} (k : α → Int) (x : α) (l : List α) (t : Int) :
    (insertB (keyLt k) x l).filter (fun a => decide (k a = t))
      = if k x = t then x :: l.filter (fun a => decide (k a = t))
        else l.filter (fun a => decide (k a = t)) := by
  induction l with
  | nil => simp only [insertB, List.filter]; split <;> simp_all
  | cons y ys ih =>
    simp only [insertB]
    by_cases hlt : keyLt k y x = true
    · have hlt2 : k y < k x := by rwa [keyLt, decide_eq_true_iff] at hlt
      rw [if_pos hlt]
      simp only [List.filter_cons, ih]
      by_cases hy : k y = t <;> by_cases hx : k x = t
      · exfalso; omega
      · simp [hy, hx]
      · simp [hy, hx]
      · simp [hy, hx]
    · rw [if_neg hlt]
      simp only [List.filter_cons]
      by_cases hx : k x = t <;> simp [hx]

theorem filter_isortB {α : Type} (k : α → Int) (l : List α) (t : Int) :
    (isortB (keyLt k) l).filter (fun a => decide (k a = t))
      = l.filter (fun a => decide (k a = t)) := by
  induction l with
  | nil => rfl
  | cons x xs ih =>
    simp only [isortB, filter_insertB, List.filter_cons, ih]
    by_cases hx : k x = t <;> simp [hx]

/-- C3: the sequence `ToyMC.run` emits is the concatenation of the
generated lists (registration order, then intra-generator order)
stable-sorted by timestamp: the result is pairwise non-decreasing in
timestamp, the records at any fixed timestamp keep their original
relative order, and the whole is a permutation of the input. -/
theorem run_sort_stable_spec (evss : List (List PyTuple)) :
    (ToyMC.sort_events evss.flatten).Pairwise
        (fun a b => tuple_timestamp a ≤ tuple_timestamp b)
    ∧ (∀ t : Int,
        (ToyMC.sort_events evss.flatten).filter (fun e => decide (tuple_timestamp e = t))
          = evss.flatten.filter (fun e => decide (tuple_timestamp e = t)))
    ∧ List.Perm (ToyMC.sort_events evss.flatten) evss.flatten :=
  ⟨pairwise_isortB tuple_timestamp evss.flatten,
   fun t => filter_isortB tuple_timestamp evss.flatten t,
   isortB_perm (keyLt tuple_timestamp) evss.flatten⟩

/-- C1 counterexample: with a generator whose Poisson oracle would
answer 7, the packaged default `EventType.actual_event_count(rng, 3, 5)`
returns the deterministic expected value 15 (a different number than
the pending Poisson draw) and leaves the generator cursor untouched, so
it neither returns nor consumes a Poisson draw. -/
theorem actual_event_count_not_poisson_cex :
    (EventType.actual_event_count constRNG 3 (.pint 5)).1 = PyNum.pint 15
    ∧ (EventType.actual_event_count constRNG 3 (.pint 5)).2.cursor = constRNG.cursor
    ∧ constRNG.poissonStream constRNG.cursor ((15 : Int) : ℚ) = 7
    ∧ PyNum.pint 15 ≠ PyNum.pint 7 := by
  refine ⟨rfl, rfl, rfl, by decide⟩

/-- C1 amended: the packaged default `EventType.actual_event_count`
returns the deterministic expected value `duration_s * rate_hz` and
consumes no draw from the generator; only the flat variant's
`EventType.actual_event_count` consumes one Poisson draw with mean
`duration_s * rate_hz` and returns it. -/
theorem actual_event_count_policies (rng : RNG) (duration_s : Int) (rate_hz : PyNum) :
    (EventType.actual_event_count rng duration_s rate_hz).1
        = pyMulIntNum duration_s rate_hz
    ∧ (EventType.actual_event_count rng duration_s rate_hz).2 = rng
    ∧ (FlatEventType.actual_event_count rng duration_s rate_hz).1
        = rng.poissonStream rng.cursor ((duration_s : ℚ) * rate_hz.toRat)
    ∧ (FlatEventType.actual_event_count rng duration_s rate_hz).2.cursor
        = rng.cursor + 1 := by
  refine ⟨rfl, rfl, ?_, rfl⟩
  show rng.poissonStream rng.cursor (pyMulIntNum duration_s rate_hz).toRat = _
  cases rate_hz with
  | pint m => simp [pyMulIntNum, PyNum.toRat]
  | pfloat q => simp [pyMulIntNum, PyNum.toRat]

/-- C2: `ToyMC.run` invokes `generate_events(self.rng, self.duration)`
with no start-time argument, and `ToyMC` stores no start time; the
packaged `Correlated.generate_events` requires a third parameter
`t0_s`, so a run with a registered `Correlated` raises `TypeError` at
the call and produces no events. -/
theorem run_call_missing_t0 :
    ToyMC.run_events [ETConfig.correlatedET corrNGd] constRNG 1
      = Except.error PyErr.typeError := rfl

/-- C5: the generation phase is deterministic in the seed - with the
same registered event types, duration, and generators built from equal
seeds, the two runs return identical results (the same event sequence
in the same order, or the same exception). -/
theorem run_generate_deterministic (mk : Nat → RNG) (seed1 seed2 : Nat)
    (ets : List ETConfig) (duration : Int) (h : seed1 = seed2) :
    ToyMC.run_generate ets (mk seed1) duration
      = ToyMC.run_generate ets (mk seed2) duration := by
  rw [h]

/-- C5 witness: two runs of a concrete configuration from seed 42. -/
theorem run_generate_deterministic_witness :
    (42 : Nat) = 42
    ∧ ToyMC.run_generate [ETConfig.singleET singleRate0] (seedRNG 42) 1
        = ToyMC.run_generate [ETConfig.singleET singleRate0] (seedRNG 42) 1 :=
  ⟨rfl, run_generate_deterministic seedRNG 42 42 [ETConfig.singleET singleRate0] 1 rfl⟩

theorem ratTruncToInt_nonneg (q : ℚ) (h : 0 ≤ q) : 0 ≤ ratTruncToInt q := by
  rw [ratTruncToInt, if_pos (Rat.num_nonneg.mpr h)]
  exact Int.ofNat_nonneg _

theorem prompt_args_fields (c : Correlated) (rng : RNG) (t : Int) :
    (c.prompt_args rng t).1.length = 17
    ∧ (c.prompt_args rng t).1.getD 2 .vNone = .vInt t
    ∧ (c.prompt_args rng t).1.getD 3 .vNone = .vInt c.detector
    ∧ (c.prompt_args rng t).1.getD 5 .vNone = .vInt c.site := by
  simp [Correlated.prompt_args, Correlated.prompt_physical_quantities, List.getD]

theorem delayed_args_fields (c : Correlated) (rng : RNG) (t : Int)
    (pos : ℚ × ℚ × ℚ) :
    (c.delayed_args rng t pos).1.length = 17
    ∧ (c.delayed_args rng t pos).1.getD 2 .vNone = .vInt t
    ∧ (c.delayed_args rng t pos).1.getD 3 .vNone = .vInt c.detector
    ∧ (c.delayed_args rng t pos).1.getD 5 .vNone = .vInt c.site := by
  simp [Correlated.delayed_args, Correlated.delayed_physical_quantities, List.getD]

theorem new_prompt_event_ok (c : Correlated) (rng : RNG) (t : Int) :
    (c.new_prompt_event rng t).1 = .ok (c.prompt_args rng t).1 := by
  rw [Correlated.new_prompt_event, pyTupleNew,
    if_pos ((prompt_args_fields c rng t).1.trans (by rfl))]

theorem new_delayed_event_ok (c : Correlated) (rng : RNG) (t : Int)
    (pos : ℚ × ℚ × ℚ) :
    (c.new_delayed_event rng t pos).1 = .ok (c.delayed_args rng t pos).1 := by
  rw [Correlated.new_delayed_event, pyTupleNew,
    if_pos ((delayed_args_fields c rng t pos).1.trans (by rfl))]

theorem pairLoop_shape (c : Correlated) :
    ∀ (ps : List (Int × Int)) (rng : RNG) (evs : List PyTuple) (rng2 : RNG),
    (∀ p ∈ ps, p.1 ≤ p.2) →
    c.pairLoop ps rng = .ok (evs, rng2) → CorrelatedShape c evs := by
  intro ps
  induction ps with
  | nil =>
    intro rng evs rng2 _ h
    rw [Correlated.pairLoop] at h
    injection h with h
    injection h with h1 _
    exact h1 ▸ CorrelatedShape.nil
  | cons tp rest ih =>
    intro rng evs rng2 hps h
    rw [Correlated.pairLoop] at h
    have hp := new_prompt_event_ok c rng tp.1
    rcases hpe : c.new_prompt_event rng tp.1 with ⟨pfst, rng1⟩
    rw [hpe] at hp h
    simp only at hp
    rw [hp] at h
    simp only at h
    have hd := new_delayed_event_ok c rng1 tp.2
      (tupleValRat ((c.prompt_args rng tp.1).1.getD 9 .vNone),
       tupleValRat ((c.prompt_args rng tp.1).1.getD 10 .vNone),
       tupleValRat ((c.prompt_args rng tp.1).1.getD 11 .vNone))
    rcases hde : c.new_delayed_event rng1 tp.2
      (tupleValRat ((c.prompt_args rng tp.1).1.getD 9 .vNone),
       tupleValRat ((c.prompt_args rng tp.1).1.getD 10 .vNone),
       tupleValRat ((c.prompt_args rng tp.1).1.getD 11 .vNone)) with ⟨dfst, rngd⟩
    rw [hde] at hd h
    simp only at hd
    rw [hd] at h
    simp only at h
    rcases hrec : c.pairLoop rest rngd with e | lr
    · rw [hrec] at h; exact absurd h (by simp)
    · rw [hrec] at h
      rcases lr with ⟨evs3, rng3⟩
      simp only at h
      injection h with h
      injection h with h1 _
      rw [← h1]
      have hts : tuple_timestamp (c.prompt_args rng tp.1).1
          ≤ tuple_timestamp (c.delayed_args rng1 tp.2
            (tupleValRat ((c.prompt_args rng tp.1).1.getD 9 .vNone),
             tupleValRat ((c.prompt_args rng tp.1).1.getD 10 .vNone),
             tupleValRat ((c.prompt_args rng tp.1).1.getD 11 .vNone))).1 := by
        rw [tuple_timestamp, tuple_timestamp, (prompt_args_fields c rng tp.1).2.1,
          (delayed_args_fields c rng1 tp.2 _).2.1]
        exact hps tp (List.mem_cons_self tp rest)
      exact CorrelatedShape.pair _ _ _
        (prompt_args_fields c rng tp.1).2.2.1
        (prompt_args_fields c rng tp.1).2.2.2
        (delayed_args_fields c rng1 tp.2 _).2.2.1
        (delayed_args_fields c rng1 tp.2 _).2.2.2
        hts
        (ih rngd evs3 rng3 (fun p hp2 => hps p (List.mem_cons_of_mem tp hp2)) hrec)

theorem shape_even (c : Correlated) (evs : List PyTuple)
    (h : CorrelatedShape c evs) : Even evs.length := by
  induction h with
  | nil => exact ⟨0, rfl⟩
  | pair p d rest _ _ _ _ _ _ ihr =>
    rcases ihr with ⟨n, hn⟩
    exact ⟨n + 1, by simp [hn]; ring⟩

theorem shape_index (c : Correlated) (evs : List PyTuple)
    (h : CorrelatedShape c evs) :
    ∀ i : Nat, 2*i+1 < evs.length →
      (evs.getD (2*i) []).getD 3 .vNone = .vInt c.detector
      ∧ (evs.getD (2*i+1) []).getD 3 .vNone = .vInt c.detector
      ∧ (evs.getD (2*i) []).getD 5 .vNone = .vInt c.site
      ∧ (evs.getD (2*i+1) []).getD 5 .vNone = .vInt c.site
      ∧ tuple_timestamp (evs.getD (2*i) []) ≤ tuple_timestamp (evs.getD (2*i+1) []) := by
  induction h with
  | nil => intro i hi; simp at hi
  | pair p d rest hpdet hpsite hddet hdsite hts _ ihr =>
    intro i hi
    cases i with
    | zero =>
      have e0 : (2*0 : Nat) = 0 := by norm_num
      have e1 : (2*0+1 : Nat) = 1 := by norm_num
      rw [e0, e1, List.getD_cons_zero, List.getD_cons_succ, List.getD_cons_zero]
      exact ⟨hpdet, hddet, hpsite, hdsite, hts⟩
    | succ j =>
      have h1 : 2*(j+1) = (2*j + 1) + 1 := by ring
      rw [h1]
      simp only [List.getD_cons_succ]
      apply ihr
      simp only [List.length_cons] at hi
      omega

theorem zip_add_nonneg (times delays : List Int)
    (h : ∀ d ∈ delays, 0 ≤ d) :
    ∀ p ∈ times.zip (List.zipWith (fun a b => a + b) times delays), p.1 ≤ p.2 := by
  induction times generalizing delays with
  | nil => simp
  | cons t ts ih =>
    cases delays with
    | nil => simp
    | cons d ds =>
      intro p hp
      simp only [List.zipWith_cons_cons, List.zip_cons_cons, List.mem_cons] at hp
      rcases hp with h1 | h2
      · rw [h1]
        have := h d (List.mem_cons_self d ds)
        simp only
        omega
      · exact ih ds (fun x hx => h x (List.mem_cons_of_mem d hx)) p h2

theorem wf_bump (r : RNG) (n : Nat) (h : r.WellFormed) : (r.bump n).WellFormed :=
  ⟨h.int_lb, h.int_ub, h.exp_nonneg, h.choice_lt⟩

theorem constRNG_wf : constRNG.WellFormed := by
  refine ⟨?_, ?_, ?_, ?_⟩
  · intro k low high h; exact le_refl low
  · intro k low high h; exact h
  · intro k scale; exact zero_le_one
  · intro k n h; exact h

/-- C6: whenever the packaged `Correlated.generate_events` returns a
list of events, that list has even length, each even-index event and
its successor carry this instance's detector and site, and the delayed
timestamp is at least the prompt timestamp (the delay is a truncated
non-negative exponential draw added to the prompt timestamp). -/
theorem correlated_pair_structure (c : Correlated) (rng : RNG)
    (duration_s t0_s : Int) (evs : List PyTuple) (hwf : rng.WellFormed)
    (h : resultEvents (c.generate_events rng duration_s t0_s) = some evs) :
    Even evs.length
    ∧ ∀ i : Nat, 2*i+1 < evs.length →
      (evs.getD (2*i) []).getD 3 .vNone = .vInt c.detector
      ∧ (evs.getD (2*i+1) []).getD 3 .vNone = .vInt c.detector
      ∧ (evs.getD (2*i) []).getD 5 .vNone = .vInt c.site
      ∧ (evs.getD (2*i+1) []).getD 5 .vNone = .vInt c.site
      ∧ tuple_timestamp (evs.getD (2*i) []) ≤ tuple_timestamp (evs.getD (2*i+1) []) := by
  simp only [Correlated.generate_events] at h
  split at h
  · simp [resultEvents, Except.toOption] at h
  · rename_i actual_number hsz
    split at h
    · simp [resultEvents, Except.toOption] at h
    · rename_i tr times_prompt rng1 hint
      split at h
      · simp [resultEvents, Except.toOption] at h
      · rename_i scale hrecip
        split at h
        · simp [resultEvents, Except.toOption] at h
        · rename_i er delay_draws rng2 hexp
          have hrng1 : rng1 = ((EventType.actual_event_count rng duration_s
              c.rate_hz).2).bump actual_number := by
            rw [RNG.integersArray] at hint
            split at hint
            · injection hint with hint; injection hint with hf hs; exact hs.symm
            · exact absurd hint (by simp)
          have hdraws : ∀ q ∈ delay_draws, (0:ℚ) ≤ q := by
            rw [RNG.exponentialArray] at hexp
            split at hexp
            · intro q hq
              have hde : delay_draws = (List.range actual_number).map
                  fun i => rng1.expStream (rng1.cursor + i) scale := by
                injection hexp with hexp; injection hexp with hf hs; exact hf.symm
              rw [hde] at hq
              rcases List.mem_map.mp hq with ⟨i, _, hiq⟩
              rw [← hiq, hrng1]
              exact hwf.exp_nonneg _ _
            · exact absurd hexp (by simp)
          have hnn : ∀ d ∈ delay_draws.map ratTruncToInt, (0:Int) ≤ d := by
            intro d hd
            rcases List.mem_map.mp hd with ⟨q, hq, hqd⟩
            exact hqd ▸ ratTruncToInt_nonneg q (hdraws q hq)
          rcases hpl : c.pairLoop (times_prompt.zip (List.zipWith
              (fun a b => a + b) times_prompt (delay_draws.map ratTruncToInt)))
              rng2 with e | lr
          · rw [hpl] at h; simp [resultEvents, Except.toOption] at h
          · rcases lr with ⟨l, r⟩
            rw [hpl] at h
            simp only [resultEvents, Except.toOption, Option.map] at h
            have hle : l = evs := by
              by_cases hcase : l = evs
              · exact hcase
              · exact absurd h (by simp [hcase])
            have hshape := pairLoop_shape c _ rng2 l r
              (zip_add_nonneg times_prompt (delay_draws.map ratTruncToInt) hnn) hpl
            rw [← hle]
            exact ⟨shape_even c l hshape, shape_index c l hshape⟩

set_option maxRecDepth 40000 in
/-- C6 witness: a concrete run of `corrIBD` returning one
prompt/delayed pair, on which the structural guarantees hold. -/
theorem correlated_pair_structure_witness :
    constRNG.WellFormed
    ∧ resultEvents (corrIBD.generate_events constRNG 1 0) = some corrIBDEvents
    ∧ (Even corrIBDEvents.length
       ∧ ∀ i : Nat, 2*i+1 < corrIBDEvents.length →
         (corrIBDEvents.getD (2*i) []).getD 3 .vNone = .vInt corrIBD.detector
         ∧ (corrIBDEvents.getD (2*i+1) []).getD 3 .vNone = .vInt corrIBD.detector
         ∧ (corrIBDEvents.getD (2*i) []).getD 5 .vNone = .vInt corrIBD.site
         ∧ (corrIBDEvents.getD (2*i+1) []).getD 5 .vNone = .vInt corrIBD.site
         ∧ tuple_timestamp (corrIBDEvents.getD (2*i) [])
             ≤ tuple_timestamp (corrIBDEvents.getD (2*i+1) [])) :=
  ⟨constRNG_wf, by with_unfolding_all rfl,
   correlated_pair_structure corrIBD constRNG 1 0 corrIBDEvents constRNG_wf
     (by with_unfolding_all rfl)⟩

set_option maxRecDepth 40000 in
/-- C7: `Correlated.generate_events` passes `1 / coincidence_ns` - the
reciprocal of the configured coincidence time scale - as the scale
(mean) of the exponential delay draw, contradicting the documented
meaning of `coincidence_ns`.  Against an oracle that echoes the scale it
receives, a pair generated with `coincidence_ns = 28000` gets a delay of
`int(1/28000) = 0` ns, so prompt and delayed share a timestamp; had the
configured time scale itself been the mean, the same oracle would have
produced a 28000 ns delay. -/
theorem correlated_delay_scale_bug :
    resultEvents (corrIBD.generate_events echoExpRNG 1 0) = some corrDelayEchoEvents
    ∧ tuple_timestamp (corrDelayEchoEvents.getD 1 [])
        - tuple_timestamp (corrDelayEchoEvents.getD 0 []) = 0
    ∧ corrIBD.coincidence_ns = 28000
    ∧ echoExpRNG.expStream 1 (1 / corrIBD.coincidence_ns) = 1 / 28000
    ∧ ratTruncToInt (1 / (28000 : ℚ)) = 0
    ∧ echoExpRNG.expStream 1 corrIBD.coincidence_ns = 28000
    ∧ ratTruncToInt ((28000 : ℚ)) = 28000 := by
  refine ⟨by with_unfolding_all rfl, by with_unfolding_all rfl, rfl, rfl,
    by with_unfolding_all rfl, rfl, by with_unfolding_all rfl⟩

set_option maxRecDepth 40000 in
/-- C8: with the partition test's configuration
(`prob_WP_and_AD = 0.5`, `prob_WP_and_shower = 0`) and a drawn count of
10 (rate 1 Hz for 10 s under the packaged deterministic count policy),
`int(count * prob_WP_and_AD)` is indeed 5 - but `Muon.generate_events`
raises `TypeError` while constructing the very first WP event (16
positional values for the 17-field `Event`), so no WP or AD events are
produced at all. -/
theorem muon_count10_raises :
    (EventType.actual_event_count constRNG 10 muonHalfAD.rate_hz).1 = PyNum.pint 10
    ∧ ratTruncToInt ((PyNum.pint 10).toRat * muonHalfAD.prob_WP_and_AD) = 5
    ∧ muonHalfAD.generate_events constRNG 10 = Except.error PyErr.typeError := by
  refine ⟨rfl, by with_unfolding_all rfl, by with_unfolding_all rfl⟩

theorem AD_event_args_det (m : Muon) (rng : RNG) (ts : Int) :
    (m.AD_event_args rng ts).1.getD 2 .vNone = .vInt ((rng.choice m.avail_ads).1) := by
  simp [Muon.AD_event_args, Muon.AD_muon_physical_quantities, List.getD]

theorem shower_event_args_det (m : Muon) (rng : RNG) (ts : Int) :
    (m.shower_event_args rng ts).1.getD 2 .vNone = .vInt ((rng.choice m.avail_ads).1) := by
  simp [Muon.shower_event_args, Muon.shower_muon_physical_quantities, List.getD]

/-- C9 counterexample: constructing a `Muon` with the unknown site 3
fails with `KeyError` (the raw dictionary-lookup error), not with the
`ConfigurationError` named by the claim - no such class exists in the
code. -/
theorem muon_site_keyerror_cex :
    Muon.init "Muon" 3 (.pint 200) = Except.error (PyErr.keyError 3)
    ∧ PyErr.keyError 3 ≠ PyErr.configurationError :=
  ⟨rfl, by decide⟩

/-- C9 amended: constructing a `Muon` with a site other than 1, 2 or 4
fails at construction time with a `KeyError` (there is no
`ConfigurationError` in the code); sites 1 and 2 get the detector set
`(1, 2)` and site 4 gets `(1, 2, 3, 4)`; and the detector value supplied
for each AD/shower event is `rng.choice(avail_ads)` - a uniform choice
from that set, hence a member of it. -/
theorem muon_site_detectors :
    (∀ site : Int, site ≠ 1 → site ≠ 2 → site ≠ 4 →
      ∀ name rate, Muon.init name site rate = .error (.keyError site))
    ∧ (∀ name rate, (Muon.init name 1 rate).toOption.map Muon.avail_ads = some [1, 2])
    ∧ (∀ name rate, (Muon.init name 2 rate).toOption.map Muon.avail_ads = some [1, 2])
    ∧ (∀ name rate, (Muon.init name 4 rate).toOption.map Muon.avail_ads
        = some [1, 2, 3, 4])
    ∧ (∀ (m : Muon) (rng : RNG) (ts : Int),
        (m.AD_event_args rng ts).1.getD 2 .vNone = .vInt ((rng.choice m.avail_ads).1))
    ∧ (∀ (m : Muon) (rng : RNG) (ts : Int), rng.WellFormed → m.avail_ads ≠ [] →
        (m.AD_event_args rng ts).1.getD 2 .vNone ∈ m.avail_ads.map PyVal.vInt)
    ∧ (∀ (m : Muon) (rng : RNG) (ts : Int),
        (m.shower_event_args rng ts).1.getD 2 .vNone
          = .vInt ((rng.choice m.avail_ads).1))
    ∧ (∀ (m : Muon) (rng : RNG) (ts : Int), rng.WellFormed → m.avail_ads ≠ [] →
        (m.shower_event_args rng ts).1.getD 2 .vNone ∈ m.avail_ads.map PyVal.vInt) := by
  have hmem : ∀ (m : Muon) (rng : RNG), rng.WellFormed → m.avail_ads ≠ [] →
      PyVal.vInt ((rng.choice m.avail_ads).1) ∈ m.avail_ads.map PyVal.vInt := by
    intro m rng hwf hne
    have hlen : 0 < m.avail_ads.length := List.length_pos.mpr hne
    have hidx := hwf.choice_lt rng.cursor _ hlen
    rw [RNG.choice]
    simp only
    rw [List.getD_eq_getElem m.avail_ads 0 hidx]
    exact List.mem_map_of_mem PyVal.vInt (List.getElem_mem hidx)
  refine ⟨?_, ?_, ?_, ?_, AD_event_args_det, ?_, shower_event_args_det, ?_⟩
  · intro site h1 h2 h4 name rate
    rw [Muon.init, muonAvailAds]
    rw [if_neg h1, if_neg h2, if_neg h4]
  · intro name rate; rfl
  · intro name rate; rfl
  · intro name rate; rfl
  · intro m rng ts hwf hne
    rw [AD_event_args_det]
    exact hmem m rng hwf hne
  · intro m rng ts hwf hne
    rw [shower_event_args_det]
    exact hmem m rng hwf hne

/-- C9 witness: site 5 is rejected with `KeyError 5`, and the AD
detector argument of a concrete `Muon` lies in its detector set. -/
theorem muon_site_detectors_witness :
    Muon.init "W" 5 (.pint 1) = Except.error (PyErr.keyError 5)
    ∧ (muonHalfAD.AD_event_args constRNG 0).1.getD 2 .vNone
        ∈ muonHalfAD.avail_ads.map PyVal.vInt :=
  ⟨muon_site_detectors.1 5 (by decide) (by decide) (by decide) "W" (.pint 1),
   muon_site_detectors.2.2.2.2.2.1 muonHalfAD constRNG 0 constRNG_wf (by decide)⟩

theorem single_event_args_len (s : Single) (rng : RNG) (ts : Int) :
    (s.event_args rng ts).1.length = 16 := by
  simp [Single.event_args, Single.physical_quantities]

theorem muon_WP_event_args_len (m : Muon) (rng : RNG) (ts : Int) :
    (m.WP_event_args rng ts).1.length = 16 := by
  simp [Muon.WP_event_args, Muon.WP_physical_quantities]

theorem muon_AD_event_args_len (m : Muon) (rng : RNG) (ts : Int) :
    (m.AD_event_args rng ts).1.length = 16 := by
  simp [Muon.AD_event_args, Muon.AD_muon_physical_quantities]

theorem muon_shower_event_args_len (m : Muon) (rng : RNG) (ts : Int) :
    (m.shower_event_args rng ts).1.length = 16 := by
  simp [Muon.shower_event_args, Muon.shower_muon_physical_quantities]

theorem single_new_event_err (s : Single) (rng : RNG) (ts : Int) :
    (s.new_event rng ts).1 = Except.error PyErr.typeError := by
  rw [Single.new_event]
  simp only
  rw [pyTupleNew, if_neg]
  rw [single_event_args_len]
  decide

theorem muon_new_WP_event_err (m : Muon) (rng : RNG) (ts : Int) :
    (m.new_WP_event rng ts).1 = Except.error PyErr.typeError := by
  rw [Muon.new_WP_event]
  simp only
  rw [pyTupleNew, if_neg]
  rw [muon_WP_event_args_len]
  decide

theorem muon_new_AD_event_err (m : Muon) (rng : RNG) (ts : Int) :
    (m.new_AD_event rng ts).1 = Except.error PyErr.typeError := by
  rw [Muon.new_AD_event]
  simp only
  rw [pyTupleNew, if_neg]
  rw [muon_AD_event_args_len]
  decide

theorem muon_new_shower_event_err (m : Muon) (rng : RNG) (ts : Int) :
    (m.new_shower_event rng ts).1 = Except.error PyErr.typeError := by
  rw [Muon.new_shower_event]
  simp only
  rw [pyTupleNew, if_neg]
  rw [muon_shower_event_args_len]
  decide

theorem genLoop_err (f : RNG → Int → Except PyErr PyTuple × RNG)
    (h : ∀ rng t, (f rng t).1 = Except.error PyErr.typeError)
    (t : Int) (ts : List Int) (rng : RNG) :
    genLoop f (t :: ts) rng = Except.error PyErr.typeError := by
  rcases hfr : f rng t with ⟨r, rng2⟩
  have h1 := h rng t
  rw [hfr] at h1
  simp only at h1
  simp only [genLoop, hfr, h1]

theorem genLoop_ok_nil (f : RNG → Int → Except PyErr PyTuple × RNG)
    (h : ∀ rng t, (f rng t).1 = Except.error PyErr.typeError)
    (ts : List Int) (rng : RNG) (out : List PyTuple × RNG)
    (hok : genLoop f ts rng = .ok out) : ts = [] ∧ out.1 = [] := by
  cases ts with
  | nil =>
    rw [genLoop] at hok
    injection hok with hok
    exact ⟨rfl, by rw [← hok]⟩
  | cons t ts2 =>
    rw [genLoop_err f h t ts2 rng] at hok
    exact absurd hok (by simp)

theorem single_generate_typeError (s : Single) (rng : RNG) (duration_s : Int)
    (n : Int)
    (hc : (EventType.actual_event_count rng duration_s s.rate_hz).1 = .pint n)
    (h1 : 1 ≤ n) (hd : 0 < duration_s) :
    s.generate_events rng duration_s = Except.error PyErr.typeError := by
  have h2 : (EventType.actual_event_count rng duration_s s.rate_hz).2 = rng := rfl
  simp only [Single.generate_events, hc, h2, pySize]
  rw [if_pos (by omega : (0:Int) ≤ n)]
  simp only [RNG.integersArray]
  rw [if_pos (mul_pos (by norm_num) hd : (0:Int) < 1000000000 * duration_s)]
  simp only
  obtain ⟨k, hk⟩ : ∃ k, n.toNat = k + 1 := ⟨n.toNat - 1, by omega⟩
  rw [hk, List.range_succ_eq_map, List.map_cons]
  exact genLoop_err _ (fun rng t => single_new_event_err s rng t) _ _ _

theorem single_generate_none (s : Single) (rng : RNG) (duration_s : Int) (n : Int)
    (hc : (EventType.actual_event_count rng duration_s s.rate_hz).1 = .pint n)
    (h1 : 1 ≤ n) :
    resultEvents (s.generate_events rng duration_s) = none := by
  have h2 : (EventType.actual_event_count rng duration_s s.rate_hz).2 = rng := rfl
  simp only [Single.generate_events, hc, h2, pySize]
  rw [if_pos (by omega : (0:Int) ≤ n)]
  simp only [RNG.integersArray]
  by_cases hlt : (0:Int) < 1000000000 * duration_s
  · rw [if_pos hlt]
    simp only
    obtain ⟨k, hk⟩ : ∃ k, n.toNat = k + 1 := ⟨n.toNat - 1, by omega⟩
    rw [hk, List.range_succ_eq_map, List.map_cons]
    rw [genLoop_err _ (fun rng t => single_new_event_err s rng t) _ _ _]
    simp [resultEvents, Except.toOption]
  · rw [if_neg hlt]
    simp [resultEvents, Except.toOption]

theorem single_generate_ok_nil (s : Single) (rng : RNG) (duration_s : Int)
    (out : List PyTuple × RNG)
    (hok : s.generate_events rng duration_s = .ok out) : out.1 = [] := by
  rw [Single.generate_events] at hok
  split at hok
  · exact absurd hok (by simp)
  · split at hok
    · exact absurd hok (by simp)
    · exact (genLoop_ok_nil _ (fun rng t => single_new_event_err s rng t)
        _ _ _ hok).2

theorem single_generate_zero (s : Single) (rng : RNG) (duration_s : Int)
    (hc : (EventType.actual_event_count rng duration_s s.rate_hz).1 = .pint 0)
    (hd : 0 < duration_s) :
    resultEvents (s.generate_events rng duration_s) = some [] := by
  have h2 : (EventType.actual_event_count rng duration_s s.rate_hz).2 = rng := rfl
  simp only [Single.generate_events, hc, h2, pySize]
  rw [if_pos (by omega : (0:Int) ≤ (0:Int))]
  simp only [RNG.integersArray]
  rw [if_pos (mul_pos (by norm_num) hd : (0:Int) < 1000000000 * duration_s)]
  simp [genLoop, resultEvents, Except.toOption]

theorem muon_generate_typeError (m : Muon) (rng : RNG) (duration_s : Int)
    (n : Int)
    (hc : (EventType.actual_event_count rng duration_s m.rate_hz).1 = .pint n)
    (h1 : 1 ≤ n) (hd : 0 < duration_s) :
    m.generate_events rng duration_s = Except.error PyErr.typeError := by
  have h2 : (EventType.actual_event_count rng duration_s m.rate_hz).2 = rng := rfl
  simp only [Muon.generate_events, hc, h2, pySize]
  rw [if_pos (by omega : (0:Int) ≤ n)]
  simp only [RNG.integersArray]
  rw [if_pos (mul_pos (by norm_num) hd : (0:Int) < 1000000000 * duration_s)]
  simp only
  obtain ⟨k, hk⟩ : ∃ k, n.toNat = k + 1 := ⟨n.toNat - 1, by omega⟩
  rw [hk, List.range_succ_eq_map, List.map_cons]
  rw [genLoop_err _ (fun rng t => muon_new_WP_event_err m rng t) _ _ _]

theorem muon_generate_none (m : Muon) (rng : RNG) (duration_s : Int) (n : Int)
    (hc : (EventType.actual_event_count rng duration_s m.rate_hz).1 = .pint n)
    (h1 : 1 ≤ n) :
    resultEvents (m.generate_events rng duration_s) = none := by
  have h2 : (EventType.actual_event_count rng duration_s m.rate_hz).2 = rng := rfl
  simp only [Muon.generate_events, hc, h2, pySize]
  rw [if_pos (by omega : (0:Int) ≤ n)]
  simp only [RNG.integersArray]
  by_cases hlt : (0:Int) < 1000000000 * duration_s
  · rw [if_pos hlt]
    simp only
    obtain ⟨k, hk⟩ : ∃ k, n.toNat = k + 1 := ⟨n.toNat - 1, by omega⟩
    rw [hk, List.range_succ_eq_map, List.map_cons]
    rw [genLoop_err _ (fun rng t => muon_new_WP_event_err m rng t) _ _ _]
    simp [resultEvents, Except.toOption]
  · rw [if_neg hlt]
    simp [resultEvents, Except.toOption]

theorem muon_generate_ok_nil (m : Muon) (rng : RNG) (duration_s : Int)
    (out : List PyTuple × RNG)
    (hok : m.generate_events rng duration_s = .ok out) : out.1 = [] := by
  rw [Muon.generate_events] at hok
  split at hok
  · exact absurd hok (by simp)
  · split at hok
    · exact absurd hok (by simp)
    · split at hok
      · exact absurd hok (by simp)
      · split at hok
        · exact absurd hok (by simp)
        · split at hok
          · exact absurd hok (by simp)
          · rename_i wpr wp_events rng2 hwp adr ad_events rng3 had swr
              shower_events rng4 hsw
            have hwpn := (genLoop_ok_nil _
              (fun rng t => muon_new_WP_event_err m rng t) _ _ _ hwp).2
            have hadn := (genLoop_ok_nil _
              (fun rng t => muon_new_AD_event_err m rng (t + 50)) _ _ _ had).2
            have hswn := (genLoop_ok_nil _
              (fun rng t => muon_new_shower_event_err m rng (t + 50)) _ _ _ hsw).2
            simp only at hwpn hadn hswn
            injection hok with hok
            rw [← hok]
            simp [hwpn, hadn, hswn]

theorem muon_generate_zero (m : Muon) (rng : RNG) (duration_s : Int)
    (hc : (EventType.actual_event_count rng duration_s m.rate_hz).1 = .pint 0)
    (hd : 0 < duration_s) :
    resultEvents (m.generate_events rng duration_s) = some [] := by
  have h2 : (EventType.actual_event_count rng duration_s m.rate_hz).2 = rng := rfl
  simp only [Muon.generate_events, hc, h2, pySize]
  rw [if_pos (by omega : (0:Int) ≤ (0:Int))]
  simp only [RNG.integersArray]
  rw [if_pos (mul_pos (by norm_num) hd : (0:Int) < 1000000000 * duration_s)]
  simp [genLoop, resultEvents, Except.toOption]

/-- C10: the packaged `Event` namedtuple has 17 fields with
`truth_index` first, but `Single.new_event` and the three `Muon` event
constructors supply only 16 positional values, so each of them raises
`TypeError`; consequently `generate_events` of the packaged `Single` or
`Muon` raises whenever the drawn event count is at least 1 (with
`TypeError` on the well-formed-window path), any normal return carries
an empty event list, and the zero-count case does return an empty
list. -/
theorem packaged_event_arity :
    eventFieldNames.length = 17
    ∧ eventFieldNames.getD 0 "" = "truth_index"
    ∧ (∀ (s : Single) (rng : RNG) (ts : Int),
        (s.event_args rng ts).1.length = 16
        ∧ (s.new_event rng ts).1 = Except.error PyErr.typeError)
    ∧ (∀ (m : Muon) (rng : RNG) (ts : Int),
        (m.WP_event_args rng ts).1.length = 16
        ∧ (m.AD_event_args rng ts).1.length = 16
        ∧ (m.shower_event_args rng ts).1.length = 16
        ∧ (m.new_WP_event rng ts).1 = Except.error PyErr.typeError
        ∧ (m.new_AD_event rng ts).1 = Except.error PyErr.typeError
        ∧ (m.new_shower_event rng ts).1 = Except.error PyErr.typeError)
    ∧ (∀ (s : Single) (rng : RNG) (duration_s n : Int),
        (EventType.actual_event_count rng duration_s s.rate_hz).1 = .pint n →
        1 ≤ n → resultEvents (s.generate_events rng duration_s) = none)
    ∧ (∀ (s : Single) (rng : RNG) (duration_s n : Int),
        (EventType.actual_event_count rng duration_s s.rate_hz).1 = .pint n →
        1 ≤ n → 0 < duration_s →
        s.generate_events rng duration_s = Except.error PyErr.typeError)
    ∧ (∀ (s : Single) (rng : RNG) (duration_s : Int) (out : List PyTuple × RNG),
        s.generate_events rng duration_s = .ok out → out.1 = [])
    ∧ (∀ (s : Single) (rng : RNG) (duration_s : Int),
        (EventType.actual_event_count rng duration_s s.rate_hz).1 = .pint 0 →
        0 < duration_s →
        resultEvents (s.generate_events rng duration_s) = some [])
    ∧ (∀ (m : Muon) (rng : RNG) (duration_s n : Int),
        (EventType.actual_event_count rng duration_s m.rate_hz).1 = .pint n →
        1 ≤ n → resultEvents (m.generate_events rng duration_s) = none)
    ∧ (∀ (m : Muon) (rng : RNG) (duration_s n : Int),
        (EventType.actual_event_count rng duration_s m.rate_hz).1 = .pint n →
        1 ≤ n → 0 < duration_s →
        m.generate_events rng duration_s = Except.error PyErr.typeError)
    ∧ (∀ (m : Muon) (rng : RNG) (duration_s : Int) (out : List PyTuple × RNG),
        m.generate_events rng duration_s = .ok out → out.1 = [])
    ∧ (∀ (m : Muon) (rng : RNG) (duration_s : Int),
        (EventType.actual_event_count rng duration_s m.rate_hz).1 = .pint 0 →
        0 < duration_s →
        resultEvents (m.generate_events rng duration_s) = some []) := by
  refine ⟨rfl, rfl, ?_, ?_, ?_, ?_, ?_, ?_, ?_, ?_, ?_, ?_⟩
  · intro s rng ts
    exact ⟨single_event_args_len s rng ts, single_new_event_err s rng ts⟩
  · intro m rng ts
    exact ⟨muon_WP_event_args_len m rng ts, muon_AD_event_args_len m rng ts,
      muon_shower_event_args_len m rng ts, muon_new_WP_event_err m rng ts,
      muon_new_AD_event_err m rng ts, muon_new_shower_event_err m rng ts⟩
  · intro s rng duration_s n hc h1
    exact single_generate_none s rng duration_s n hc h1
  · intro s rng duration_s n hc h1 hd
    exact single_generate_typeError s rng duration_s n hc h1 hd
  · intro s rng duration_s out hok
    exact single_generate_ok_nil s rng duration_s out hok
  · intro s rng duration_s hc hd
    exact single_generate_zero s rng duration_s hc hd
  · intro m rng duration_s n hc h1
    exact muon_generate_none m rng duration_s n hc h1
  · intro m rng duration_s n hc h1 hd
    exact muon_generate_typeError m rng duration_s n hc h1 hd
  · intro m rng duration_s out hok
    exact muon_generate_ok_nil m rng duration_s out hok
  · intro m rng duration_s hc hd
    exact muon_generate_zero m rng duration_s hc hd

/-- C10 witness: a rate-2 `Single` over 3 seconds (count 6) raises
`TypeError`; the rate-0 variants return empty lists; a rate-1 `Muon`
over 10 seconds (count 10) raises `TypeError`. -/
theorem packaged_event_arity_witness :
    singleRate2.generate_events constRNG 3 = Except.error PyErr.typeError
    ∧ resultEvents (singleRate0.generate_events constRNG 3) = some []
    ∧ muonHalfAD.generate_events constRNG 10 = Except.error PyErr.typeError
    ∧ resultEvents (muonRate0.generate_events constRNG 10) = some [] :=
  ⟨packaged_event_arity.2.2.2.2.2.1 singleRate2 constRNG 3 6 rfl
      (by decide) (by decide),
   packaged_event_arity.2.2.2.2.2.2.2.1 singleRate0 constRNG 3 rfl (by decide),
   packaged_event_arity.2.2.2.2.2.2.2.2.2.1 muonHalfAD constRNG 10 10 rfl
      (by decide) (by decide),
   packaged_event_arity.2.2.2.2.2.2.2.2.2.2.2 muonRate0 constRNG 10 rfl (by decide)⟩

theorem length_insertB {α : Type} (lt : α → α → Bool) (x : α) (l : List α) :
    (insertB lt x l).length = l.length + 1 := by
  induction l with
  | nil => rfl
  | cons y ys ih =>
    simp only [insertB]
    split
    · simp [ih]
    · simp

theorem length_isortB {α : Type} (lt : α → α → Bool) (l : List α) :
    (isortB lt l).length = l.length := by
  induction l with
  | nil => rfl
  | cons x xs ih => simp [isortB, length_insertB, ih]

theorem collect_one_isOk (name : String) (lbls : List LabelDecl) :
    (collect_one name lbls).isOk = true ↔ lbls.all labelEntryValid = true := by
  induction lbls with
  | nil => simp [collect_one, Except.isOk, Except.toBool]
  | cons e rest ih =>
    rcases e with ⟨number, label⟩
    rw [List.all_cons]
    cases number with
    | none =>
      have hval : labelEntryValid (none, label) = false := rfl
      rw [hval]
      simp [collect_one, Except.isOk, Except.toBool]
    | some v =>
      by_cases hv : v < 0
      · have hval : labelEntryValid (some v, label) = false := by
          simp [labelEntryValid]
          omega
        rw [hval]
        simp [collect_one, if_pos hv, Except.isOk, Except.toBool]
      · have hval : labelEntryValid (some v, label) = true := by
          simp [labelEntryValid]
          omega
        rw [hval, Bool.true_and, ← ih]
        rcases hrec : collect_one name rest with e2 | p
        · simp [collect_one, if_neg hv, hrec, Except.isOk, Except.toBool]
        · rcases p with ⟨nbl, lbn⟩
          simp [collect_one, if_neg hv, hrec, Except.isOk, Except.toBool]

theorem collect_one_ok_len (name : String) (lbls : List LabelDecl)
    (p : List (String × Int) × List (Int × String))
    (h : collect_one name lbls = .ok p) : p.1.length = lbls.length := by
  induction lbls generalizing p with
  | nil =>
    rw [collect_one] at h
    injection h with h
    rw [← h]
    rfl
  | cons e rest ih =>
    rcases e with ⟨number, label⟩
    cases number with
    | none => rw [collect_one] at h; exact absurd h (by simp)
    | some v =>
      by_cases hv : v < 0
      · rw [collect_one, if_pos hv] at h; exact absurd h (by simp)
      · rw [collect_one, if_neg hv] at h
        rcases hrec : collect_one name rest with e2 | p2
        · rw [hrec] at h; exact absurd h (by simp)
        · rw [hrec] at h
          rcases p2 with ⟨nbl, lbn⟩
          simp only at h
          injection h with h
          rw [← h]
          simp [ih (nbl, lbn) hrec]

theorem collect_labels_isOk (ets : List (String × List LabelDecl)) :
    (collect_labels ets).isOk = true
      ↔ (ets.all fun et => et.2.all labelEntryValid) = true := by
  induction ets with
  | nil => simp [collect_labels, Except.isOk, Except.toBool]
  | cons et rest ih =>
    rcases et with ⟨name, lbls⟩
    rw [List.all_cons]
    rcases h1 : collect_one name lbls with e | p
    · have := (collect_one_isOk name lbls)
      rw [h1] at this
      simp [Except.isOk, Except.toBool] at this
      rcases this with ⟨a, b, hab, hval⟩
      simp only [collect_labels, h1]
      simp [Except.isOk, Except.toBool]
      intro hall
      have := hall a b hab
      rw [this] at hval
      exact absurd hval (by simp)
    · have hhead : lbls.all labelEntryValid = true := by
        rw [← collect_one_isOk name lbls, h1]
        rfl
      rw [hhead, Bool.true_and, ← ih]
      rcases p with ⟨nbl, lbn⟩
      rcases hrec : collect_labels rest with e2 | p2
      · simp [collect_labels, h1, hrec, Except.isOk, Except.toBool]
      · rcases p2 with ⟨nbl2, lbn2⟩
        simp [collect_labels, h1, hrec, Except.isOk, Except.toBool]

theorem collect_labels_ok_len (ets : List (String × List LabelDecl))
    (p : List (String × Int) × List (Int × String))
    (h : collect_labels ets = .ok p) :
    p.1.length = (ets.map fun et => et.2.length).sum := by
  induction ets generalizing p with
  | nil =>
    rw [collect_labels] at h
    injection h with h
    rw [← h]
    rfl
  | cons et rest ih =>
    rcases et with ⟨name, lbls⟩
    rcases h1 : collect_one name lbls with e | p1
    · rw [collect_labels, h1] at h; exact absurd h (by simp)
    · rcases p1 with ⟨nbl1, lbn1⟩
      rcases hrec : collect_labels rest with e2 | p2
      · rw [collect_labels, h1, hrec] at h; exact absurd h (by simp)
      · rcases p2 with ⟨nbl2, lbn2⟩
        rw [collect_labels, h1, hrec] at h
        simp only at h
        injection h with h
        rw [← h]
        simp only [List.map_cons, List.sum_cons, List.length_append]
        rw [collect_one_ok_len name lbls (nbl1, lbn1) h1,
          ih (nbl2, lbn2) hrec]

theorem any_nonempty_iff_sum (ets : List (String × List LabelDecl)) :
    (ets.any fun et => !et.2.isEmpty) = true
      ↔ (ets.map fun et => et.2.length).sum ≠ 0 := by
  induction ets with
  | nil => simp
  | cons et rest ih =>
    simp only [List.any_cons, List.map_cons, List.sum_cons, Bool.or_eq_true,
      Bool.not_eq_true', ih]
    have hlen : et.2.isEmpty = false ↔ et.2.length ≠ 0 := by
      cases het : et.2 <;> simp
    rw [hlen]
    omega

/-- C4 counterexample: two `Correlated` instances declare the same
numeric code 1 (`TypeA_prompt` and `TypeB_prompt`), yet the validation
and table-building of `MCOutput.prep_truth_lookup` succeeds - no
`InvalidLookupError` (nor any other exception) is raised for the
duplicate code. -/
theorem prep_truth_lookup_duplicate_ok_cex :
    corrDupA.truth_label_prompt = some 1
    ∧ corrDupB.truth_label_prompt = some 1
    ∧ (prep_truth_lookup dupLabelEventTypes).isOk = true :=
  ⟨rfl, rfl, by with_unfolding_all rfl⟩

/-- C4 amended: `MCOutput.prep_truth_lookup` raises `InvalidLookupError`
only for a missing (`None`) or negative code, identifying the offending
EventType name, label and code; duplicate codes across EventTypes are
not detected - the build succeeds exactly when every declared code is
present and non-negative and at least one label exists, regardless of
duplication. -/
theorem prep_truth_lookup_validation :
    (∀ ets, (prep_truth_lookup ets).isOk = true ↔
      ((ets.all fun et => et.2.all labelEntryValid) = true
       ∧ (ets.any fun et => !et.2.isEmpty) = true))
    ∧ (∀ name lbl rest ets2,
        prep_truth_lookup ((name, (none, lbl) :: rest) :: ets2)
          = .error (.invalidLookup name lbl none))
    ∧ (∀ (name lbl : String) (v : Int) rest ets2, v < 0 →
        prep_truth_lookup ((name, (some v, lbl) :: rest) :: ets2)
          = .error (.invalidLookup name lbl (some v))) := by
  refine ⟨?_, ?_, ?_⟩
  · intro ets
    rcases hcl : collect_labels ets with e | p
    · have hfalse : ¬ ((ets.all fun et => et.2.all labelEntryValid) = true) := by
        rw [← collect_labels_isOk, hcl]
        simp [Except.isOk, Except.toBool]
      simp [prep_truth_lookup, hcl, Except.isOk, Except.toBool, hfalse]
    · rcases p with ⟨nbl, lbn⟩
      have hall : (ets.all fun et => et.2.all labelEntryValid) = true := by
        rw [← collect_labels_isOk, hcl]
        rfl
      have hlen := collect_labels_ok_len ets (nbl, lbn) hcl
      simp only at hlen
      simp only [prep_truth_lookup, hcl]
      by_cases hemp : (isortB strIntLt nbl).isEmpty = true
      · rw [if_pos hemp]
        have hemp2 : nbl.length = 0 := by
          rw [List.isEmpty_iff] at hemp
          have h3 := length_isortB strIntLt nbl
          rw [hemp] at h3
          exact h3.symm
        have hany : ¬ ((ets.any fun et => !et.2.isEmpty) = true) := by
          rw [any_nonempty_iff_sum, ← hlen]
          simp [hemp2]
        simp [Except.isOk, Except.toBool, hany]
      · rw [if_neg hemp]
        have hemp2 : nbl.length ≠ 0 := by
          intro h0
          apply hemp
          rw [List.isEmpty_iff, ← List.length_eq_zero, length_isortB]
          exact h0
        have hany : (ets.any fun et => !et.2.isEmpty) = true := by
          rw [any_nonempty_iff_sum, ← hlen]
          exact hemp2
        simp [Except.isOk, Except.toBool, hall, hany]
  · intro name lbl rest ets2
    rfl
  · intro name lbl v rest ets2 hv
    simp [prep_truth_lookup, collect_labels, collect_one, if_pos hv]

/-- C4 witness: the duplicate-code configuration builds successfully,
and a negative code is rejected with an `InvalidLookupError` carrying
the offending name, label and code. -/
theorem prep_truth_lookup_validation_witness :
    (prep_truth_lookup dupLabelEventTypes).isOk = true
    ∧ prep_truth_lookup [("R", [(some (-2), "R_label")])]
        = .error (.invalidLookup "R" "R_label" (some (-2))) :=
  ⟨(prep_truth_lookup_validation.1 dupLabelEventTypes).mpr ⟨by decide, by decide⟩,
   prep_truth_lookup_validation.2.2 "R" "R_label" (-2) [] [] (by decide)⟩
